import Mathlib

/-!
Shallow embedding of the approval-gated file-operation coordinator
(file_agent.py, orchestrator.py, slack_approval_mcp.py).

External effects (the OpenAI-driven executor, the Slack MCP transport,
wall-clock time) are passed in as explicit outcome values; timestamps
are modelled as integers counting whole seconds.  Every definition
mirrors the corresponding Python function; source file and line ranges
are named in the doc comments.
-/

/-- file_agent.py, OperationType enum. -/
inductive OperationType
| list
| read
| delete
| move
| write
deriving DecidableEq, BEq, Repr

/-- file_agent.py, FileOperation dataclass. -/
structure FileOperation where
  type : OperationType
  path : String
  destination : Option String := none
  content : Option String := none
deriving DecidableEq, BEq, Repr

/-- file_agent.py line 33: the set self.high_risk_operations. -/
def high_risk_operations : List OperationType :=
  [OperationType.delete, OperationType.move, OperationType.write]

/-- file_agent.py line 40: FileManagementAgent.is_high_risk_operation. -/
def is_high_risk_operation (operation : FileOperation) : Bool :=
  high_risk_operations.contains operation.type

/-- ASCII lower-casing of one character, modelling str.lower() on the
ASCII texts this system compares. -/
def lowerChar (c : Char) : Char :=
  if 65 ≤ c.toNat ∧ c.toNat ≤ 90 then Char.ofNat (c.toNat + 32) else c

/-- str.lower() over a whole string. -/
def lowerStr (s : String) : String :=
  ⟨s.toList.map lowerChar⟩

/-- Split a character list at '/' separators, accumulator holds the
current segment reversed. -/
def splitSlashAux : List Char → List Char → List String
| [], acc => [⟨acc.reverse⟩]
| c :: rest, acc =>
  if c = '/' then (⟨acc.reverse⟩ : String) :: splitSlashAux rest []
  else splitSlashAux rest (c :: acc)

/-- path.split("/"), i.e. String.splitOn "/". -/
def splitSlash (s : String) : List String :=
  splitSlashAux s.toList []

/-- One normalisation step of os.path.normpath over a segment list:
a ".." segment pops the last segment, "." and empty segments are dropped,
anything else is pushed. -/
def resolveSegment (acc : List String) (s : String) : List String :=
  if s = ".." then acc.dropLast
  else if s = "." || s = "" then acc
  else acc ++ [s]

/-- file_agent.py line 55: _get_full_path, i.e.
os.path.abspath(os.path.join(working_directory, path)) for a relative
path input, with the working directory given as an absolute segment list. -/
def _get_full_path (wd : List String) (path : String) : List String :=
  (splitSlash path).foldl resolveSegment wd

/-- file_agent.py line 59: _is_path_allowed.  For two absolute paths,
os.path.commonpath([path, wd]) == wd holds exactly when wd is a
segment-prefix of path. -/
def _is_path_allowed (wd full : List String) : Bool :=
  wd.isPrefixOf full

/-- file_agent.py line 44: execute_operation.  The AI code
generation/execution pair is an external effect whose outcome is the
execResult argument; the returned Bool records whether that external
executor was actually invoked (i.e. the path check passed). -/
def execute_operation (wd : List String) (execResult : Except String String)
    (operation : FileOperation) : Except String String × Bool :=
  let full_path := _get_full_path wd operation.path
  if _is_path_allowed wd full_path then (execResult, true)
  else (Except.error ("Operation not allowed outside working directory: "
          ++ String.intercalate "/" full_path), false)

/-- orchestrator.py line 178 calls self.agent._move_file, but
FileManagementAgent (file_agent.py) defines no method _move_file, so the
attribute access always raises AttributeError. -/
def agent_move_file : Except String Unit :=
  Except.error "AttributeError: FileManagementAgent object has no attribute _move_file"

deriving instance DecidableEq for Except

/-- Result of orchestrator.py _execute_with_fallback together with a
trace of what was invoked. -/
structure ExecOutcome where
  result : Except String String
  executorInvoked : Bool
  fallbackAttempts : Nat
deriving DecidableEq, Repr

/-- orchestrator.py line 168: _execute_with_fallback.  nowIso models
datetime.now().isoformat() at the time of the fallback. -/
def _execute_with_fallback (wd : List String) (execResult : Except String String)
    (nowIso : String) (operation : FileOperation) : ExecOutcome :=
  match execute_operation wd execResult operation with
  | (Except.ok r, inv) => ⟨Except.ok r, inv, 0⟩
  | (Except.error e, inv) =>
    if operation.type = OperationType.delete then
      let trash_path := "trash/" ++ nowIso ++ "_" ++ operation.path
      match agent_move_file with
      | Except.ok _ => ⟨Except.ok ("File moved to trash: " ++ trash_path), inv, 1⟩
      | Except.error _ => ⟨Except.error e, inv, 1⟩
    else ⟨Except.error e, inv, 0⟩

/-- slack_approval_mcp.py, ApprovalStatus enum. -/
inductive ApprovalStatus
| pending
| approved
| denied
| timeout
deriving DecidableEq, BEq, Repr

/-- slack_approval_mcp.py, ApprovalRequest dataclass. -/
structure ApprovalRequest where
  id : String
  operation : FileOperation
  timestamp : Int
  status : ApprovalStatus
  context : String
  responded_by : Option String := none
  response_time : Option Int := none
deriving DecidableEq, Repr

/-- slack_approval_mcp.py lines 57-64: the fresh request built at the
start of request_approval. -/
def mkApprovalRequest (id : String) (operation : FileOperation)
    (timestamp : Int) (context : String) : ApprovalRequest :=
  { id := id, operation := operation, timestamp := timestamp,
    status := ApprovalStatus.pending, context := context }

/-- Whether needle occurs as a contiguous run inside hay. -/
def listIsInfix (needle : List Char) : List Char → Bool
| [] => needle.isEmpty
| c :: t => needle.isPrefixOf (c :: t) || listIsInfix needle t

/-- Python substring membership: containsSub hay needle models
`needle in hay`. -/
def containsSub (hay needle : String) : Bool :=
  listIsInfix needle.toList hay.toList

/-- One channel message in dict shape, after the normalisation of
slack_approval_mcp.py lines 292-319.  Fields are Option so that a
missing dict key (dict.get default) is distinguishable from an empty
value.  ts is the raw timestamp string used as the message identifier;
tsTime is float(ts) in whole seconds when that parse succeeds (the code
only compares it against a 5-second window).  Each attachments element
models one attachment dict's "callback_id" value, none when that key is
absent. -/
structure ChannelMessage where
  user : Option String := none
  username : Option String := none
  text : Option String := none
  ts : Option String := none
  tsTime : Option Int := none
  value : Option String := none
  attachments : List (Option String) := []
deriving DecidableEq, Repr

/-- A raw element of message_list: either a dict or a non-dict payload
that the code handles via str(message). -/
inductive RawMessage
| dict (m : ChannelMessage)
| str (s : String)
deriving DecidableEq, Repr

/-- Text extraction used by _is_approval_response (lines 390-397) and
_process_response (lines 424-429): message.get("text", "") for dicts,
str(message) otherwise. -/
def textOf : RawMessage → String
| RawMessage.dict m => m.text.getD ""
| RawMessage.str s => s

/-- Message identifier extraction, _wait_for_response lines 323-331:
message.get('ts', '') for dicts, '' otherwise. -/
def tsOf : RawMessage → String
| RawMessage.dict m => m.ts.getD ""
| RawMessage.str _ => ""

/-- Responder extraction, _process_response lines 424-428:
message.get("username", message.get("user", "unknown")). -/
def responderOf : RawMessage → String
| RawMessage.dict m => m.username.getD (m.user.getD "unknown")
| RawMessage.str _ => "unknown"

/-- The SlackApprovalMCP instance state read by _is_bot_message:
self.bot_user_id (always None in the source, since _get_bot_info at
lines 44-50 returns None, but kept as a parameter) and
self.message_sent_timestamp in whole seconds. -/
structure PollEnv where
  botUserId : Option String := none
  sentTime : Option Int := none
deriving DecidableEq, Repr

/-- slack_approval_mcp.py line 242: _is_bot_message.  The Python chain
of early `return True` branches is written as a disjunction of the same
conditions in the same order; `if self.bot_user_id and ...` requires a
non-None, non-empty bot_user_id.  The final branch models the 5-second
echo window: it fires only when message_sent_timestamp is set and
float(message["ts"]) parses (tsTime is some). -/
def _is_bot_message (env : PollEnv) (msg : RawMessage) : Bool :=
  match msg with
  | RawMessage.str _ => false
  | RawMessage.dict m =>
    (match env.botUserId with
     | some b => (b != "") && (m.user.getD "" == b)
     | none => false)
    || containsSub (lowerStr (m.username.getD "")) "bot"
    || containsSub (lowerStr (m.username.getD "")) "app"
    || containsSub (m.text.getD "") "Agent Approval Request"
    || containsSub (m.text.getD "") "To approve, reply:"
    || (match env.sentTime, m.tsTime with
        | some st, some mt => decide ((mt - st).natAbs < 5)
        | _, _ => false)

/-- slack_approval_mcp.py line 387: _is_approval_response.  The three
early-return tests (attachment callback_id hit, text hit, button value
hit) are written as a disjunction of the same conditions. -/
def _is_approval_response (msg : RawMessage) (approval_id : String) : Bool :=
  let attachHit := match msg with
    | RawMessage.dict m => m.attachments.any (fun cb => match cb with
        | some c => containsSub c approval_id
        | none => false)
    | RawMessage.str _ => false
  let text_lower := lowerStr (textOf msg)
  let idl := lowerStr approval_id
  let has_id := containsSub text_lower idl
  let has_approve := containsSub text_lower "approve"
  let has_deny := containsSub text_lower "deny" || containsSub text_lower "reject"
  let valueHit := match msg with
    | RawMessage.dict m => (match m.value with
        | some v => containsSub v approval_id
        | none => false)
    | RawMessage.str _ => false
  attachHit || (has_id && (has_approve || has_deny)) || valueHit

/-- slack_approval_mcp.py line 419: _process_response.  Sets
response_time and responded_by unconditionally, then derives the status
from the message text; `now` models datetime.now() in whole seconds. -/
def _process_response (now : Int) (msg : RawMessage)
    (request : ApprovalRequest) : ApprovalRequest :=
  let r1 := { request with response_time := some now,
                           responded_by := some (responderOf msg) }
  let text_lower := lowerStr (textOf msg)
  let idl := lowerStr request.id
  if containsSub text_lower "approve" && containsSub text_lower idl then
    { r1 with status := ApprovalStatus.approved }
  else if (containsSub text_lower "deny" || containsSub text_lower "reject")
      && containsSub text_lower idl then
    { r1 with status := ApprovalStatus.denied }
  else r1

/-- One resolution-affecting event applied to an ApprovalRequest: a call
to _process_response, or the timeout assignment of _wait_for_response
line 384. -/
inductive LedgerStep
| respond (now : Int) (msg : RawMessage)
| timeoutMark
deriving DecidableEq, Repr

/-- Apply one LedgerStep. -/
def applyStep : LedgerStep → ApprovalRequest → ApprovalRequest
| LedgerStep.respond now msg, r => _process_response now msg r
| LedgerStep.timeoutMark, r => { r with status := ApprovalStatus.timeout }

/-- Apply a sequence of LedgerSteps in order. -/
def runSteps (steps : List LedgerStep) (r : ApprovalRequest) : ApprovalRequest :=
  steps.foldl (fun a s => applyStep s a) r

/-- Outcome of the per-message body of the polling loop. -/
structure HandleResult where
  seen : List String
  req : ApprovalRequest
  processed : Bool
deriving DecidableEq, Repr

/-- The body of the for-loop in _wait_for_response, lines 323-353, for a
single message: skip if the identifier was already seen, mark and skip
bot messages, otherwise test _is_approval_response and, on a match, mark
seen and run _process_response.  processed records whether the approval
branch ran (the branch whose status check can return from the loop). -/
def handleMessage (env : PollEnv) (now : Int) (seen : List String)
    (req : ApprovalRequest) (msg : RawMessage) : HandleResult :=
  let msg_ts := tsOf msg
  if msg_ts ≠ "" ∧ msg_ts ∈ seen then ⟨seen, req, false⟩
  else if _is_bot_message env msg then
    ⟨if msg_ts ≠ "" then msg_ts :: seen else seen, req, false⟩
  else if _is_approval_response msg req.id then
    ⟨if msg_ts ≠ "" then msg_ts :: seen else seen,
     _process_response now msg req, true⟩
  else ⟨if msg_ts ≠ "" then msg_ts :: seen else seen, req, false⟩

/-- Outcome of one poll cycle (or of a whole polling run): the seen set,
the request, and whether the loop returned early because a processed
message left the request non-PENDING. -/
structure CycleResult where
  seen : List String
  req : ApprovalRequest
  resolved : Bool
deriving DecidableEq, Repr

/-- One iteration of the while-loop body over a fetched message list,
lines 323-353: messages are handled in order and the loop returns as
soon as a processed message leaves the request non-PENDING (remaining
messages are not examined and not marked seen). -/
def pollCycle (env : PollEnv) (now : Int) (msgs : List RawMessage)
    (seen : List String) (req : ApprovalRequest) : CycleResult :=
  match msgs with
  | [] => ⟨seen, req, false⟩
  | m :: rest =>
    let h := handleMessage env now seen req m
    if h.processed ∧ h.req.status ≠ ApprovalStatus.pending then
      ⟨h.seen, h.req, true⟩
    else pollCycle env now rest h.seen h.req

/-- One observable event of the polling loop: a successful
conversations_history fetch at a given time, or a transport error
raised by the fetch. -/
inductive PollEvent
| fetch (now : Int) (msgs : List RawMessage)
| transportError (err : String)
deriving DecidableEq, Repr

/-- Whether a PollEvent is a successful fetch. -/
def PollEvent.isFetch : PollEvent → Bool
| PollEvent.fetch _ _ => true
| PollEvent.transportError _ => false

/-- The while-loop of _wait_for_response, lines 282-381, over the
sequence of fetch outcomes that occur before the deadline.  A transport
error is caught (lines 355-375), possibly sleeps, and polling
continues with unchanged state; a fetch runs one pollCycle and the loop
returns as soon as it resolves. -/
def pollRun (env : PollEnv) : List PollEvent → List String → ApprovalRequest → CycleResult
| [], seen, req => ⟨seen, req, false⟩
| PollEvent.fetch now msgs :: rest, seen, req =>
    let c := pollCycle env now msgs seen req
    if c.resolved then c else pollRun env rest c.seen c.req
| PollEvent.transportError _ :: rest, seen, req => pollRun env rest seen req

/-- slack_approval_mcp.py line 271: _wait_for_response.  Starts with an
empty seen set; if the deadline passes without a resolution the request
status is overwritten with TIMEOUT (lines 383-385). -/
def _wait_for_response (env : PollEnv) (events : List PollEvent)
    (req : ApprovalRequest) : ApprovalRequest :=
  let c := pollRun env events [] req
  if c.resolved then c.req
  else { c.req with status := ApprovalStatus.timeout }

/-- Decimal value of a digit run, as int() applied to the digits
captured by the regex group. -/
def digitsVal (ds : List Char) : Nat :=
  ds.foldl (fun n c => n * 10 + (c.toNat - 48)) 0

/-- Attempt to match the regex `retry after (\d+)([ms])` at the head of
the character list: the literal "retry after ", then a nonempty digit
run, then 's' or 'm'. -/
def matchRetryAt (cs : List Char) : Option (Nat × Char) :=
  if ("retry after ".toList).isPrefixOf cs then
    let rest := cs.drop ("retry after ".toList).length
    let ds := rest.takeWhile Char.isDigit
    let rest2 := rest.dropWhile Char.isDigit
    if ds.isEmpty then none
    else match rest2 with
      | c :: _ => if c = 's' ∨ c = 'm' then some (digitsVal ds, c) else none
      | [] => none
  else none

/-- Leftmost-match scan, as re.search: try the pattern at each
position from the left. -/
def scanRetryAfter : List Char → Option (Nat × Char)
| [] => none
| c :: rest =>
  match matchRetryAt (c :: rest) with
  | some r => some r
  | none => scanRetryAfter rest

/-- re.search(r'retry after (\d+)([ms])', error_msg), slack line 361,
returning the numeric group and the unit character. -/
def parseRetryAfter (s : String) : Option (Nat × Char) :=
  scanRetryAfter s.toList

/-- What the except-branch of the polling loop (lines 355-375) does
with a transport error: how long it sleeps inside the handler, whether
it `continue`s (skipping the bottom-of-loop check_interval sleep), and
whether it reassigns check_interval. -/
structure ErrorHandling where
  sleepSeconds : Nat
  skipIntervalSleep : Bool
  newCheckInterval : Option Nat
deriving DecidableEq, Repr

/-- slack_approval_mcp.py lines 355-375: the transport-error handler.
Rate-limit errors with a parsable retry-after hint sleep
min(hint in seconds, 5) and continue immediately; rate-limit errors
without a hint sleep 5 and set check_interval to 10; any other error is
only logged and polling proceeds. -/
def handleTransportError (errMsg : String) : ErrorHandling :=
  if containsSub (lowerStr errMsg) "rate limit" then
    match parseRetryAfter errMsg with
    | some (v, u) => ⟨min (if u = 'm' then v * 60 else v) 5, true, none⟩
    | none => ⟨5, false, some 10⟩
  else ⟨0, false, none⟩

/-- orchestrator.py, AuditLogEntry dataclass; timestamp in whole
seconds. -/
structure AuditLogEntry where
  timestamp : Int
  operation : FileOperation
  required_approval : Bool
  approval_status : Option ApprovalStatus := none
  approved_by : Option String := none
  execution_result : Option String := none
  error : Option String := none
deriving DecidableEq, Repr

/-- The dict returned by orchestrator.py process_request to its
caller. -/
structure RequestResult where
  success : Bool
  result : Option String := none
  error : Option String := none
  required_approval : Bool
  approval_status : Option String := none
deriving DecidableEq, Repr

/-- Outcomes of the external collaborators consumed by one
process_request call: the intent parser (parse_intent), the approval
coordinator (request_approval, whose returned request is terminal on
the happy path but is matched on exactly as the code does), and the
AI executor behind execute_operation; now and nowIso model
datetime.now(). -/
structure OrchEnv where
  parseResult : Except String FileOperation
  approvalResult : Except String ApprovalRequest
  execResult : Except String String
  now : Int
  nowIso : String
deriving Repr

/-- Result of one process_request call: the caller-visible dict, the
audit log after the call, and a trace of which collaborators were
invoked. -/
structure OrchOutcome where
  response : RequestResult
  audit_log : List AuditLogEntry
  approvalInvoked : Bool
  executorInvoked : Bool
deriving Repr

/-- orchestrator.py line 35: process_request.  Every branch mirrors the
source: when parse_intent raises, the outer handler finds log_entry
still None and appends nothing; when execution raises in the
already-approved branch the inner `except approval_error` handler
(line 106) catches it, so the caller sees a "Failed to get approval"
error; when execution raises in the low-risk branch the outer handler
(line 135) appends the entry with the raw error. -/
def process_request (wd : List String) (env : OrchEnv)
    (audit_log : List AuditLogEntry) : OrchOutcome :=
  match env.parseResult with
  | Except.error e =>
    ⟨{ success := false, error := some e, required_approval := false },
     audit_log, false, false⟩
  | Except.ok operation =>
    let entry : AuditLogEntry :=
      { timestamp := env.now, operation := operation,
        required_approval := is_high_risk_operation operation }
    if is_high_risk_operation operation then
      match env.approvalResult with
      | Except.error ae =>
        ⟨{ success := false, error := some ("Failed to get approval: " ++ ae),
           required_approval := true, approval_status := some "error" },
         audit_log ++ [{ entry with error := some ("Approval system error: " ++ ae) }],
         true, false⟩
      | Except.ok approval =>
        let entry := { entry with approval_status := some approval.status,
                                  approved_by := approval.responded_by }
        match approval.status with
        | ApprovalStatus.approved =>
          let fb := _execute_with_fallback wd env.execResult env.nowIso operation
          match fb.result with
          | Except.ok r =>
            ⟨{ success := true, result := some r, required_approval := true,
               approval_status := some "approved" },
             audit_log ++ [{ entry with execution_result := some "Success" }],
             true, fb.executorInvoked⟩
          | Except.error e =>
            ⟨{ success := false, error := some ("Failed to get approval: " ++ e),
               required_approval := true, approval_status := some "error" },
             audit_log ++ [{ entry with error := some ("Approval system error: " ++ e) }],
             true, fb.executorInvoked⟩
        | ApprovalStatus.denied =>
          ⟨{ success := false, error := some "Operation denied by human reviewer",
             required_approval := true, approval_status := some "denied" },
           audit_log ++ [{ entry with execution_result := some "Denied" }],
           true, false⟩
        | _ =>
          ⟨{ success := false, error := some "Approval request timed out",
             required_approval := true, approval_status := some "timeout" },
           audit_log ++ [{ entry with execution_result := some "Timeout" }],
           true, false⟩
    else
      let fb := _execute_with_fallback wd env.execResult env.nowIso operation
      match fb.result with
      | Except.ok r =>
        ⟨{ success := true, result := some r, required_approval := false },
         audit_log ++ [{ entry with execution_result := some "Success" }],
         false, fb.executorInvoked⟩
      | Except.error e =>
        ⟨{ success := false, error := some e,
           required_approval := entry.required_approval },
         audit_log ++ [{ entry with error := some e }],
         false, fb.executorInvoked⟩

/-- Concrete working directory used by the closed theorems below. -/
def wdDemo : List String := ["home", "artem", "agent-workspace"]

/-- A concrete in-scope operation. -/
def opDemo : FileOperation := { type := OperationType.delete, path := "old-backup.zip" }

/-- A concrete high-risk operation whose target escapes the working
directory. -/
def opEscape : FileOperation := { type := OperationType.delete, path := "../secrets.txt" }

/-- A concrete already-approved request. -/
def reqApproved : ApprovalRequest :=
  { id := "ab12cd34", operation := opDemo, timestamp := 0,
    status := ApprovalStatus.approved, context := "ctx",
    responded_by := some "alice", response_time := some 10 }

/-- Orchestrator environment in which intent parsing fails. -/
def envParseFail : OrchEnv :=
  { parseResult := Except.error "ParseError: could not produce a valid Operation",
    approvalResult := Except.error "unused",
    execResult := Except.error "unused", now := 0, nowIso := "t0" }

/-- Orchestrator environment delivering the escaping operation with an
approving reviewer. -/
def envEscape : OrchEnv :=
  { parseResult := Except.ok opEscape,
    approvalResult := Except.ok { reqApproved with operation := opEscape },
    execResult := Except.ok "unreachable", now := 0, nowIso := "t0" }

/-- A deny reply naming the request id, authored by bob. -/
def msgDeny : ChannelMessage :=
  { user := some "U9", username := some "bob", text := some "deny ab12cd34",
    ts := some "123.456", tsTime := some 123 }

/-- An approve reply naming the request id, authored by alice. -/
def msgApprove : ChannelMessage :=
  { user := some "U7", username := some "alice", text := some "approve ab12cd34",
    ts := some "200.0", tsTime := some 200 }

/-- A button-style response: the request id appears only in the action
value, the visible text is empty. -/
def msgButton : ChannelMessage :=
  { user := some "U2", username := some "carol", text := some "",
    ts := some "111.22", tsTime := some 111, value := some "approve_ab12cd34" }

/-- A message carrying the literal prompt marker text together with the
request id and the word approve. -/
def msgMarker : ChannelMessage :=
  { user := some "U3", username := some "dave",
    text := some "Agent Approval Request approve ab12cd34",
    ts := some "300.0", tsTime := some 300 }

/-- Poller state with no known bot identity, as produced by
_get_bot_info. -/
def envPollDemo : PollEnv := { botUserId := none, sentTime := none }

/-- A fresh PENDING request with the demo id. -/
def reqFresh : ApprovalRequest := mkApprovalRequest "ab12cd34" opDemo 0 "c"

/-- _process_response never changes the request id. -/
theorem processResponse_id (now : Int) (msg : RawMessage) (r : ApprovalRequest) :
    (_process_response now msg r).id = r.id := by
  unfold _process_response
  dsimp only
  split
  · rfl
  · split <;> rfl

/-- _process_response always stamps response_time with the current
time. -/
theorem processResponse_time (now : Int) (msg : RawMessage) (r : ApprovalRequest) :
    (_process_response now msg r).response_time = some now := by
  unfold _process_response
  dsimp only
  split
  · rfl
  · split <;> rfl

/-- The status produced by _process_response as an explicit decision on
the message text and the request id. -/
theorem processResponse_status_formula (now : Int) (m : RawMessage) (r : ApprovalRequest) :
    (_process_response now m r).status =
      (if containsSub (lowerStr (textOf m)) "approve"
          && containsSub (lowerStr (textOf m)) (lowerStr r.id) then ApprovalStatus.approved
       else if (containsSub (lowerStr (textOf m)) "deny"
            || containsSub (lowerStr (textOf m)) "reject")
          && containsSub (lowerStr (textOf m)) (lowerStr r.id) then ApprovalStatus.denied
       else r.status) := by
  unfold _process_response
  dsimp only
  split
  · rfl
  · split <;> rfl

/-- _process_response only moves a status towards APPROVED or DENIED:
if the result is PENDING the input was already PENDING. -/
theorem processResponse_status_pending (now : Int) (msg : RawMessage) (r : ApprovalRequest)
    (h : (_process_response now msg r).status = ApprovalStatus.pending) :
    r.status = ApprovalStatus.pending := by
  rw [processResponse_status_formula] at h
  split at h
  · cases h
  · split at h
    · cases h
    · exact h

/-- Re-processing the same message does not change the status a first
_process_response produced. -/
theorem processResponse_twice_status (n1 n2 : Int) (m : RawMessage) (r : ApprovalRequest) :
    (_process_response n2 m (_process_response n1 m r)).status
      = (_process_response n1 m r).status := by
  rw [processResponse_status_formula n2, processResponse_id,
      processResponse_status_formula n1]
  by_cases hA : (containsSub (lowerStr (textOf m)) "approve"
      && containsSub (lowerStr (textOf m)) (lowerStr r.id)) = true
  · simp [hA]
  · by_cases hD : ((containsSub (lowerStr (textOf m)) "deny"
        || containsSub (lowerStr (textOf m)) "reject")
        && containsSub (lowerStr (textOf m)) (lowerStr r.id)) = true
    · simp [hA, hD]
    · simp [hA, hD]

/-- C8: for every operation whose kind is Delete, Move or Write the
risk classifier is_high_risk_operation returns true, and for List and
Read it returns false (the iff below decides both directions for every
operation); as a total Lean function it is pure with no failure mode. -/
theorem c8_risk_classifier (op : FileOperation) :
    is_high_risk_operation op = true ↔
      (op.type = OperationType.delete ∨ op.type = OperationType.move
        ∨ op.type = OperationType.write) := by
  rcases op with ⟨t, p, d, c⟩
  cases t <;> (dsimp only [is_high_risk_operation]; decide)

/-- C7 (code bug): for the Delete operation "old-backup.zip" whose
primary execution fails with "disk error", the fallback is attempted
exactly once but surfaces the original error, and the caller can never
receive the quarantine success string, because the fallback calls
self.agent._move_file and FileManagementAgent defines no such method. -/
theorem c7_fallback_unreachable :
    (_execute_with_fallback wdDemo (Except.error "disk error")
        "2026-10-12T00:00:00" opDemo).result = Except.error "disk error" ∧
    (_execute_with_fallback wdDemo (Except.error "disk error")
        "2026-10-12T00:00:00" opDemo).fallbackAttempts = 1 ∧
    (_execute_with_fallback wdDemo (Except.error "disk error")
        "2026-10-12T00:00:00" opDemo).result.isOk = false := by
  decide

/-- C3 counterexample: a button-style response whose value carries the
request id but whose text carries no outcome token is accepted by
_is_approval_response, yet _process_response leaves the fresh request
PENDING while setting response_time — so a PENDING request can have a
non-null response_time, contradicting the claimed iff. -/
theorem c3_counterexample :
    _is_approval_response (RawMessage.dict msgButton) reqFresh.id = true ∧
    (_process_response 5 (RawMessage.dict msgButton) reqFresh).status
      = ApprovalStatus.pending ∧
    (_process_response 5 (RawMessage.dict msgButton) reqFresh).response_time
      = some 5 := by
  decide

/-- Requests evolved from a fresh PENDING request keep the invariant
that APPROVED or DENIED implies a set response_time. -/
theorem runSteps_time_inv (steps : List LedgerStep) (r : ApprovalRequest)
    (h : (r.status = ApprovalStatus.approved ∨ r.status = ApprovalStatus.denied) →
      r.response_time ≠ none) :
    ((runSteps steps r).status = ApprovalStatus.approved ∨
      (runSteps steps r).status = ApprovalStatus.denied) →
      (runSteps steps r).response_time ≠ none := by
  induction steps generalizing r with
  | nil => exact h
  | cons s rest ih =>
    show ((runSteps rest (applyStep s r)).status = ApprovalStatus.approved ∨ _) → _
    apply ih
    cases s with
    | respond now msg =>
      intro _
      show (_process_response now msg r).response_time ≠ none
      rw [processResponse_time]
      exact Option.noConfusion
    | timeoutMark =>
      intro hst
      simp only [applyStep] at hst
      rcases hst with hst | hst <;> cases hst

/-- C3 amended: starting from a fresh PENDING request, any sequence of
_process_response calls and timeout marks preserves the implication
"status APPROVED or DENIED → response_time is set"; the claimed
converse (PENDING or TIMEOUT → response_time null) is refuted by the
counterexample, since a matched message that yields no outcome token
stamps response_time while the status stays PENDING. -/
theorem c3_amended (steps : List LedgerStep) (id : String) (op : FileOperation)
    (ts : Int) (ctx : String)
    (h : (runSteps steps (mkApprovalRequest id op ts ctx)).status = ApprovalStatus.approved ∨
         (runSteps steps (mkApprovalRequest id op ts ctx)).status = ApprovalStatus.denied) :
    (runSteps steps (mkApprovalRequest id op ts ctx)).response_time ≠ none := by
  refine runSteps_time_inv steps (mkApprovalRequest id op ts ctx) ?_ h
  intro hc
  rcases hc with hc | hc <;> cases hc

/-- Witness for C3 amended at a concrete approving reply. -/
theorem c3_witness :
    (runSteps [LedgerStep.respond 5 (RawMessage.dict msgApprove)]
        (mkApprovalRequest "ab12cd34" opDemo 0 "c")).response_time ≠ none :=
  c3_amended [LedgerStep.respond 5 (RawMessage.dict msgApprove)]
    "ab12cd34" opDemo 0 "c" (Or.inl (by decide))

/-- C4 counterexample: _process_response has no terminal-state guard:
resolving an already APPROVED request with a deny message flips it to
DENIED and overwrites the responder, so a terminal request is not left
unchanged. -/
theorem c4_counterexample :
    _process_response 20 (RawMessage.dict msgDeny) reqApproved ≠ reqApproved ∧
    reqApproved.status = ApprovalStatus.approved ∧
    (_process_response 20 (RawMessage.dict msgDeny) reqApproved).status
      = ApprovalStatus.denied ∧
    (_process_response 20 (RawMessage.dict msgDeny) reqApproved).responded_by
      = some "bob" := by
  decide

/-- C4 amended: once a request's status has left PENDING, no further
sequence of _process_response calls or timeout marks can return it to
PENDING (a terminal status can still be overwritten by another terminal
status, as the counterexample shows). -/
theorem c4_amended (steps : List LedgerStep) (r : ApprovalRequest)
    (h : r.status ≠ ApprovalStatus.pending) :
    (runSteps steps r).status ≠ ApprovalStatus.pending := by
  induction steps generalizing r with
  | nil => exact h
  | cons s rest ih =>
    show (runSteps rest (applyStep s r)).status ≠ ApprovalStatus.pending
    apply ih
    cases s with
    | respond now msg =>
      intro hc
      exact h (processResponse_status_pending now msg r hc)
    | timeoutMark =>
      intro hc
      cases hc

/-- Witness for C4 amended on a concrete terminal request. -/
theorem c4_witness :
    (runSteps [LedgerStep.respond 20 (RawMessage.dict msgDeny)] reqApproved).status
      ≠ ApprovalStatus.pending :=
  c4_amended [LedgerStep.respond 20 (RawMessage.dict msgDeny)] reqApproved (by decide)

/-- C1 counterexample: when intent parsing fails, process_request
appends no audit entry at all (log_entry is still None in the outer
handler), refuting "exactly one audit entry on every path, including
when intent parsing fails". -/
theorem c1_counterexample :
    (process_request wdDemo envParseFail []).audit_log.length ≠ 1 := by
  decide

/-- C1 amended: process_request always returns exactly one result and
lets no exception escape (it is a total function of its collaborators'
outcomes), and it appends exactly one audit entry whenever intent
parsing succeeds and zero entries when intent parsing fails. -/
theorem c1_amended (wd : List String) (env : OrchEnv) (log : List AuditLogEntry) :
    ∃ tail : List AuditLogEntry,
      (process_request wd env log).audit_log = log ++ tail ∧
      tail.length = (match env.parseResult with
        | Except.ok _ => 1
        | Except.error _ => 0) := by
  cases hp : env.parseResult with
  | error e =>
    refine ⟨[], ?_, rfl⟩
    simp [process_request, hp]
  | ok op =>
    simp only [process_request, hp]
    split
    · cases ha : env.approvalResult with
      | error ae => exact ⟨_, rfl, rfl⟩
      | ok approval =>
        dsimp only
        split
        · split
          · exact ⟨_, rfl, rfl⟩
          · exact ⟨_, rfl, rfl⟩
        · exact ⟨_, rfl, rfl⟩
        · exact ⟨_, rfl, rfl⟩
    · split
      · exact ⟨_, rfl, rfl⟩
      · exact ⟨_, rfl, rfl⟩

/-- If the path check refuses the operation, the external executor is
never invoked, whatever _execute_with_fallback then does. -/
theorem execFallback_not_invoked (wd : List String) (er : Except String String)
    (iso : String) (op : FileOperation)
    (hpath : _is_path_allowed wd (_get_full_path wd op.path) = false) :
    (_execute_with_fallback wd er iso op).executorInvoked = false := by
  simp [_execute_with_fallback, execute_operation, hpath, agent_move_file]
  split <;> rfl

/-- C5 counterexample: a high-risk Delete whose target resolves outside
the working directory still reaches the approval coordinator, because
the path check only runs inside execute_operation, after approval. -/
theorem c5_counterexample :
    _is_path_allowed wdDemo (_get_full_path wdDemo opEscape.path) = false ∧
    is_high_risk_operation opEscape = true ∧
    (process_request wdDemo envEscape []).approvalInvoked = true := by
  decide

/-- C5 amended: an operation whose target resolves outside the working
directory is refused before the executor runs — the external executor
is never invoked for it — but the refusal happens inside the execution
step, so the approval coordinator is still invoked first for high-risk
operations (as the counterexample shows). -/
theorem c5_amended (wd : List String) (env : OrchEnv) (log : List AuditLogEntry)
    (op : FileOperation) (hp : env.parseResult = Except.ok op)
    (hpath : _is_path_allowed wd (_get_full_path wd op.path) = false) :
    (process_request wd env log).executorInvoked = false := by
  simp only [process_request, hp]
  split
  · cases ha : env.approvalResult with
    | error ae => rfl
    | ok approval =>
      dsimp only
      split
      · split
        · exact execFallback_not_invoked wd env.execResult env.nowIso op hpath
        · exact execFallback_not_invoked wd env.execResult env.nowIso op hpath
      · rfl
      · rfl
  · split
    · exact execFallback_not_invoked wd env.execResult env.nowIso op hpath
    · exact execFallback_not_invoked wd env.execResult env.nowIso op hpath

/-- Witness for C5 amended on the concrete escaping Delete. -/
theorem c5_witness :
    (process_request wdDemo envEscape []).executorInvoked = false :=
  c5_amended wdDemo envEscape [] opEscape rfl (by decide)

/-- C2: a channel message authored by the known bot identity, or whose
text contains one of the literal prompt marker strings, is classified
self-originated by _is_bot_message, and the polling-loop body leaves
the request untouched for it (it is skipped or marked seen, never
resolved), whatever its text otherwise contains. -/
theorem c2_self_originated (env : PollEnv) (m : ChannelMessage)
    (h : (∃ b, env.botUserId = some b ∧ b ≠ "" ∧ m.user.getD "" = b) ∨
         containsSub (m.text.getD "") "Agent Approval Request" = true ∨
         containsSub (m.text.getD "") "To approve, reply:" = true) :
    _is_bot_message env (RawMessage.dict m) = true ∧
    ∀ (now : Int) (seen : List String) (req : ApprovalRequest),
      (handleMessage env now seen req (RawMessage.dict m)).req = req := by
  have hbot : _is_bot_message env (RawMessage.dict m) = true := by
    unfold _is_bot_message
    rcases h with ⟨b, hb, hbne, hu⟩ | h | h
    · simp [hb, hu, hbne]
    · simp [h]
    · simp [h]
  refine ⟨hbot, ?_⟩
  intro now seen req
  by_cases hskip : tsOf (RawMessage.dict m) ≠ "" ∧ tsOf (RawMessage.dict m) ∈ seen
  · unfold handleMessage
    dsimp only
    rw [if_pos hskip]
  · unfold handleMessage
    dsimp only
    rw [if_neg hskip, if_pos hbot]

/-- Witness for C2 on a message that carries the prompt marker text,
the request id and the word approve. -/
theorem c2_witness :
    _is_bot_message envPollDemo (RawMessage.dict msgMarker) = true ∧
    (handleMessage envPollDemo 7 [] reqFresh (RawMessage.dict msgMarker)).req
      = reqFresh := by
  have h := c2_self_originated envPollDemo msgMarker (Or.inr (Or.inl (by decide)))
  exact ⟨h.1, h.2 7 [] reqFresh⟩

/-- A message with a nonempty identifier always ends up in the seen set
after the loop body, on every branch. -/
theorem handleMessage_seen_mem (env : PollEnv) (now : Int) (seen : List String)
    (req : ApprovalRequest) (m : RawMessage) (hts : tsOf m ≠ "") :
    tsOf m ∈ (handleMessage env now seen req m).seen := by
  unfold handleMessage
  dsimp only
  split
  · rename_i hc
    exact hc.2
  · split
    · simp [hts]
    · split
      · simp [hts]
      · simp [hts]

/-- Feeding the loop body its own output state with the same message
cannot change the request status again: the message is either skipped
via the seen set, re-classified the same way, or re-processed to the
same status. -/
theorem handleMessage_twice_status (env : PollEnv) (n1 n2 : Int) (seen : List String)
    (req : ApprovalRequest) (m : RawMessage) :
    (handleMessage env n2 (handleMessage env n1 seen req m).seen
        (handleMessage env n1 seen req m).req m).req.status
      = (handleMessage env n1 seen req m).req.status := by
  by_cases h1 : tsOf m ≠ "" ∧ tsOf m ∈ seen
  · have e1 : handleMessage env n1 seen req m = ⟨seen, req, false⟩ := by
      unfold handleMessage
      dsimp only
      rw [if_pos h1]
    have e2 : handleMessage env n2 seen req m = ⟨seen, req, false⟩ := by
      unfold handleMessage
      dsimp only
      rw [if_pos h1]
    rw [e1, e2]
  · by_cases h2 : _is_bot_message env m = true
    · by_cases hts : tsOf m = ""
      · have e1 : handleMessage env n1 seen req m = ⟨seen, req, false⟩ := by
          unfold handleMessage
          dsimp only
          rw [if_neg h1, if_pos h2]
          simp [hts]
        have e2 : handleMessage env n2 seen req m = ⟨seen, req, false⟩ := by
          unfold handleMessage
          dsimp only
          rw [if_neg h1, if_pos h2]
          simp [hts]
        rw [e1, e2]
      · have e1 : handleMessage env n1 seen req m = ⟨tsOf m :: seen, req, false⟩ := by
          unfold handleMessage
          dsimp only
          rw [if_neg h1, if_pos h2]
          simp [hts]
        have e2 : handleMessage env n2 (tsOf m :: seen) req m
            = ⟨tsOf m :: seen, req, false⟩ := by
          unfold handleMessage
          dsimp only
          rw [if_pos ⟨hts, List.mem_cons_self _ _⟩]
        rw [e1, e2]
    · by_cases h3 : _is_approval_response m req.id = true
      · by_cases hts : tsOf m = ""
        · have e1 : handleMessage env n1 seen req m
              = ⟨seen, _process_response n1 m req, true⟩ := by
            unfold handleMessage
            dsimp only
            rw [if_neg h1, if_neg h2, if_pos h3]
            simp [hts]
          have h1b : ¬(tsOf m ≠ "" ∧ tsOf m ∈ seen) := fun hc => hc.1 hts
          have h3b : _is_approval_response m (_process_response n1 m req).id = true := by
            rw [processResponse_id]
            exact h3
          have e2 : handleMessage env n2 seen (_process_response n1 m req) m
              = ⟨seen, _process_response n2 m (_process_response n1 m req), true⟩ := by
            unfold handleMessage
            dsimp only
            rw [if_neg h1b, if_neg h2, if_pos h3b]
            simp [hts]
          rw [e1, e2]
          exact processResponse_twice_status n1 n2 m req
        · have e1 : handleMessage env n1 seen req m
              = ⟨tsOf m :: seen, _process_response n1 m req, true⟩ := by
            unfold handleMessage
            dsimp only
            rw [if_neg h1, if_neg h2, if_pos h3]
            simp [hts]
          have e2 : handleMessage env n2 (tsOf m :: seen) (_process_response n1 m req) m
              = ⟨tsOf m :: seen, _process_response n1 m req, false⟩ := by
            unfold handleMessage
            dsimp only
            rw [if_pos ⟨hts, List.mem_cons_self _ _⟩]
          rw [e1, e2]
      · by_cases hts : tsOf m = ""
        · have e1 : handleMessage env n1 seen req m = ⟨seen, req, false⟩ := by
            unfold handleMessage
            dsimp only
            rw [if_neg h1, if_neg h2, if_neg h3]
            simp [hts]
          have e2 : handleMessage env n2 seen req m = ⟨seen, req, false⟩ := by
            unfold handleMessage
            dsimp only
            rw [if_neg h1, if_neg h2, if_neg h3]
            simp [hts]
          rw [e1, e2]
        · have e1 : handleMessage env n1 seen req m = ⟨tsOf m :: seen, req, false⟩ := by
            unfold handleMessage
            dsimp only
            rw [if_neg h1, if_neg h2, if_neg h3]
            simp [hts]
          have e2 : handleMessage env n2 (tsOf m :: seen) req m
              = ⟨tsOf m :: seen, req, false⟩ := by
            unfold handleMessage
            dsimp only
            rw [if_pos ⟨hts, List.mem_cons_self _ _⟩]
          rw [e1, e2]

/-- On a one-message fetch the cycle's request is the loop body's
request, whether or not the cycle returned early. -/
theorem pollCycle_single_req (env : PollEnv) (now : Int) (m : RawMessage)
    (seen : List String) (req : ApprovalRequest) :
    (pollCycle env now [m] seen req).req = (handleMessage env now seen req m).req := by
  unfold pollCycle
  dsimp only
  split
  · rfl
  · rfl

/-- On a one-message fetch the cycle's seen set is the loop body's seen
set. -/
theorem pollCycle_single_seen (env : PollEnv) (now : Int) (m : RawMessage)
    (seen : List String) (req : ApprovalRequest) :
    (pollCycle env now [m] seen req).seen = (handleMessage env now seen req m).seen := by
  unfold pollCycle
  dsimp only
  split
  · rfl
  · rfl

/-- C6: feeding the identical message payload to the poller in two
successive poll cycles yields at most one status transition of the
request: the second cycle either skips the now-seen identifier or
re-derives the same status, so it never adds a second transition. -/
theorem c6_dedup (env : PollEnv) (n1 n2 : Int) (m : RawMessage)
    (seen : List String) (req : ApprovalRequest) :
    ((if (pollCycle env n1 [m] seen req).req.status ≠ req.status then 1 else 0) : Nat)
      + (if (pollCycle env n2 [m] (pollCycle env n1 [m] seen req).seen
              (pollCycle env n1 [m] seen req).req).req.status
            ≠ (pollCycle env n1 [m] seen req).req.status then 1 else 0) ≤ 1 := by
  have h2 : (pollCycle env n2 [m] (pollCycle env n1 [m] seen req).seen
      (pollCycle env n1 [m] seen req).req).req.status
      = (pollCycle env n1 [m] seen req).req.status := by
    rw [pollCycle_single_req env n2, pollCycle_single_seen env n1,
        pollCycle_single_req env n1]
    exact handleMessage_twice_status env n1 n2 seen req m
  rw [h2]
  have hno : ¬((pollCycle env n1 [m] seen req).req.status
      ≠ (pollCycle env n1 [m] seen req).req.status) := fun hc => hc rfl
  rw [if_neg hno]
  split
  · simp
  · simp

/-- Unfolding step of pollRun on a successful fetch. -/
theorem pollRun_cons_fetch (env : PollEnv) (now : Int) (msgs : List RawMessage)
    (rest : List PollEvent) (seen : List String) (req : ApprovalRequest) :
    pollRun env (PollEvent.fetch now msgs :: rest) seen req
      = (if (pollCycle env now msgs seen req).resolved
         then pollCycle env now msgs seen req
         else pollRun env rest (pollCycle env now msgs seen req).seen
                (pollCycle env now msgs seen req).req) := rfl

/-- Unfolding step of pollRun on a transport error: state is unchanged
and polling continues. -/
theorem pollRun_cons_err (env : PollEnv) (err : String) (rest : List PollEvent)
    (seen : List String) (req : ApprovalRequest) :
    pollRun env (PollEvent.transportError err :: rest) seen req
      = pollRun env rest seen req := rfl

/-- Transport errors are transparent to the polling run: the run over
any event sequence equals the run over its successful fetches only, so
no transport error aborts the wait or reaches the caller. -/
theorem pollRun_filter (env : PollEnv) (events : List PollEvent)
    (seen : List String) (req : ApprovalRequest) :
    pollRun env events seen req
      = pollRun env (events.filter PollEvent.isFetch) seen req := by
  induction events generalizing seen req with
  | nil => rfl
  | cons e rest ih =>
    cases e with
    | fetch now msgs =>
      have hf : List.filter PollEvent.isFetch (PollEvent.fetch now msgs :: rest)
          = PollEvent.fetch now msgs :: List.filter PollEvent.isFetch rest := rfl
      rw [hf, pollRun_cons_fetch, pollRun_cons_fetch]
      split
      · rfl
      · exact ih _ _
    | transportError err =>
      have hf : List.filter PollEvent.isFetch (PollEvent.transportError err :: rest)
          = List.filter PollEvent.isFetch rest := rfl
      rw [hf, pollRun_cons_err]
      exact ih seen req

/-- C9: a rate-limit transport error with a parsable retry-after hint
makes the poller sleep min(hint in seconds, 5) and retry immediately,
and every transport error is absorbed by the loop: the polling run over
any event sequence equals the run over its successful fetches, so no
transient error aborts the wait or is surfaced before the deadline. -/
theorem c9_transient_errors :
    (∀ (errMsg : String) (v : Nat) (u : Char),
        containsSub (lowerStr errMsg) "rate limit" = true →
        parseRetryAfter errMsg = some (v, u) →
        (handleTransportError errMsg).sleepSeconds
            = min (if u = 'm' then v * 60 else v) 5 ∧
        (handleTransportError errMsg).skipIntervalSleep = true) ∧
    ∀ (env : PollEnv) (events : List PollEvent) (seen : List String)
        (req : ApprovalRequest),
      pollRun env events seen req
        = pollRun env (events.filter PollEvent.isFetch) seen req := by
  constructor
  · intro errMsg v u hrl hparse
    unfold handleTransportError
    rw [if_pos hrl, hparse]
    exact ⟨rfl, rfl⟩
  · exact pollRun_filter

/-- Witness for C9 at a concrete rate-limit error with a 30-second
hint, capped to the 5-second ceiling. -/
theorem c9_witness :
    (handleTransportError "Slack rate limit: retry after 30s").sleepSeconds = 5 ∧
    (handleTransportError "Slack rate limit: retry after 30s").skipIntervalSleep = true := by
  have h := c9_transient_errors.1 "Slack rate limit: retry after 30s" 30 's'
    (by decide) (by decide)
  refine ⟨?_, h.2⟩
  rw [h.1]
  decide

/-- A message whose text yields no outcome token for the given id
leaves the status of any request with that id unchanged under
_process_response. -/
theorem buttonOnly_processResponse (m : ChannelMessage) (idStr : String)
    (hap : (containsSub (lowerStr (m.text.getD "")) "approve"
        && containsSub (lowerStr (m.text.getD "")) (lowerStr idStr)) = false)
    (hde : containsSub (lowerStr (m.text.getD "")) "deny" = false)
    (hre : containsSub (lowerStr (m.text.getD "")) "reject" = false)
    (r : ApprovalRequest) (hid : r.id = idStr) (now : Int) :
    (_process_response now (RawMessage.dict m) r).status = r.status := by
  rw [processResponse_status_formula]
  simp only [textOf]
  rw [hid]
  simp [hap, hde, hre]

/-- One poll cycle over a single tokenless button message keeps the
request PENDING with its id, and never resolves. -/
theorem buttonOnly_cycle (env : PollEnv) (m : ChannelMessage) (idStr : String)
    (hap : (containsSub (lowerStr (m.text.getD "")) "approve"
        && containsSub (lowerStr (m.text.getD "")) (lowerStr idStr)) = false)
    (hde : containsSub (lowerStr (m.text.getD "")) "deny" = false)
    (hre : containsSub (lowerStr (m.text.getD "")) "reject" = false)
    (r : ApprovalRequest) (hid : r.id = idStr)
    (hpend : r.status = ApprovalStatus.pending)
    (now : Int) (seen : List String) :
    (pollCycle env now [RawMessage.dict m] seen r).req.status = ApprovalStatus.pending ∧
    (pollCycle env now [RawMessage.dict m] seen r).req.id = idStr ∧
    (pollCycle env now [RawMessage.dict m] seen r).resolved = false := by
  have hmain : (handleMessage env now seen r (RawMessage.dict m)).req.status
        = ApprovalStatus.pending
      ∧ (handleMessage env now seen r (RawMessage.dict m)).req.id = idStr := by
    unfold handleMessage
    dsimp only
    split
    · exact ⟨hpend, hid⟩
    · split
      · exact ⟨hpend, hid⟩
      · split
        · constructor
          · rw [buttonOnly_processResponse m idStr hap hde hre r hid now]
            exact hpend
          · rw [processResponse_id]
            exact hid
        · exact ⟨hpend, hid⟩
  have hres : (pollCycle env now [RawMessage.dict m] seen r).resolved = false := by
    unfold pollCycle
    dsimp only
    split
    · rename_i hcond
      exact absurd hmain.1 hcond.2
    · rfl
  refine ⟨?_, ?_, hres⟩
  · rw [pollCycle_single_req]
    exact hmain.1
  · rw [pollCycle_single_req]
    exact hmain.2

/-- Repeating fetch cycles that only ever deliver the tokenless button
message never resolve the request: it stays PENDING forever. -/
theorem buttonOnly_run (env : PollEnv) (m : ChannelMessage) (idStr : String)
    (hap : (containsSub (lowerStr (m.text.getD "")) "approve"
        && containsSub (lowerStr (m.text.getD "")) (lowerStr idStr)) = false)
    (hde : containsSub (lowerStr (m.text.getD "")) "deny" = false)
    (hre : containsSub (lowerStr (m.text.getD "")) "reject" = false) :
    ∀ (n : Nat) (now : Int) (seen : List String) (r : ApprovalRequest),
      r.id = idStr → r.status = ApprovalStatus.pending →
      (pollRun env (List.replicate n (PollEvent.fetch now [RawMessage.dict m]))
          seen r).resolved = false ∧
      (pollRun env (List.replicate n (PollEvent.fetch now [RawMessage.dict m]))
          seen r).req.status = ApprovalStatus.pending := by
  intro n
  induction n with
  | zero =>
    intro now seen r hid hpend
    exact ⟨rfl, hpend⟩
  | succ k ih =>
    intro now seen r hid hpend
    have hc := buttonOnly_cycle env m idStr hap hde hre r hid hpend now seen
    rw [List.replicate_succ, pollRun_cons_fetch, if_neg (by rw [hc.2.2]; exact Bool.false_ne_true)]
    exact ih now (pollCycle env now [RawMessage.dict m] seen r).seen
      (pollCycle env now [RawMessage.dict m] seen r).req hc.2.1 hc.1

/-- C10: a channel message matching only through its button action
value (value carries the request id; the text has no approve-with-id
and no deny/reject token; no attachments) is accepted by
_is_approval_response, yet _process_response leaves the request
PENDING; its identifier is marked seen by the loop body, and any number
of poll cycles fed this message never resolve the request. -/
theorem c10_button_never_resolves (env : PollEnv) (m : ChannelMessage)
    (req : ApprovalRequest) (v : String)
    (hval : m.value = some v) (hvid : containsSub v req.id = true)
    (_hatt : m.attachments = [])
    (hap : (containsSub (lowerStr (m.text.getD "")) "approve"
        && containsSub (lowerStr (m.text.getD "")) (lowerStr req.id)) = false)
    (hde : containsSub (lowerStr (m.text.getD "")) "deny" = false)
    (hre : containsSub (lowerStr (m.text.getD "")) "reject" = false)
    (hpend : req.status = ApprovalStatus.pending) :
    _is_approval_response (RawMessage.dict m) req.id = true ∧
    (∀ now : Int, (_process_response now (RawMessage.dict m) req).status
        = ApprovalStatus.pending) ∧
    (∀ (now : Int) (seen : List String), tsOf (RawMessage.dict m) ≠ "" →
        tsOf (RawMessage.dict m)
          ∈ (handleMessage env now seen req (RawMessage.dict m)).seen) ∧
    ∀ (n : Nat) (now : Int) (seen : List String),
      (pollRun env (List.replicate n (PollEvent.fetch now [RawMessage.dict m]))
          seen req).resolved = false ∧
      (pollRun env (List.replicate n (PollEvent.fetch now [RawMessage.dict m]))
          seen req).req.status = ApprovalStatus.pending := by
  refine ⟨?_, ?_, ?_, ?_⟩
  · unfold _is_approval_response
    dsimp only
    rw [hval]
    simp [hvid]
  · intro now
    rw [buttonOnly_processResponse m req.id hap hde hre req rfl now]
    exact hpend
  · intro now seen hts
    exact handleMessage_seen_mem env now seen req (RawMessage.dict m) hts
  · intro n now seen
    exact buttonOnly_run env m req.id hap hde hre n now seen req rfl hpend

/-- Witness for C10 on the concrete button message and fresh request,
over two poll cycles. -/
theorem c10_witness :
    _is_approval_response (RawMessage.dict msgButton) reqFresh.id = true ∧
    (pollRun envPollDemo
        (List.replicate 2 (PollEvent.fetch 3 [RawMessage.dict msgButton]))
        [] reqFresh).resolved = false ∧
    (pollRun envPollDemo
        (List.replicate 2 (PollEvent.fetch 3 [RawMessage.dict msgButton]))
        [] reqFresh).req.status = ApprovalStatus.pending := by
  have h := c10_button_never_resolves envPollDemo msgButton reqFresh "approve_ab12cd34"
    (by decide) (by decide) (by decide) (by decide) (by decide) (by decide) (by decide)
  exact ⟨h.1, (h.2.2.2 2 3 []).1, (h.2.2.2 2 3 []).2⟩
